import Mathlib

/-!
Verification development for the Uniconnect club-event backend.

This file gives a shallow embedding of the event registration,
unregistration, attendance and review route handlers of the repository
(the two `POST /:id/register` handlers, `POST /:id/unregister`,
`PUT /:id/attendees/:userId/attendance`, the first `POST /:id/review`
handler, and the standalone `POST /api/event-registrations` route), and
proves properties of that embedding.

Modelling conventions:
- Identifiers (ObjectId values) are `String`; times (JS `Date`) are `Nat`
  milliseconds; request outcomes are a status code plus the message string
  sent by the handler.
- Optional numeric document fields are `Option Nat`; JS truthiness of such
  a field is modelled by `jsNum` (both `undefined` and `0` are falsy).
- The stores (events, users, event registrations) are association lists in
  a `St` record; `findById` is `find?` on the list, `save` writes the
  updated document back in place.
- The embedding assumes the university documents referenced by an event or
  a user exist (otherwise the routes crash into their 500 catch blocks);
  the populated name may still be the empty string, which is falsy in JS
  and triggers the documented fallbacks.
-/

namespace Uniconnect

/-- An entry of `Event.attendees`: a user reference plus an attended flag. -/
structure Attendee where
  user : String
  attended : Bool
deriving DecidableEq, Repr

/-- An entry of `Event.reviews`. -/
structure Review where
  user : String
  rating : Nat
  comment : String
deriving DecidableEq, Repr

/-- An entry of `User.eventsAttended` (pushed by the first register handler). -/
structure AttendedEntry where
  event : String
  attendedDate : Nat
deriving DecidableEq, Repr

/-- The fields of an Event document used by the embedded handlers. -/
structure EventRec where
  title : String
  isRegistrationRequired : Bool
  registrationDeadline : Option Nat
  startDate : Nat
  capacity : Option Nat
  maxAttendees : Option Nat
  universityId : String
  universityName : String
  clubPresident : Option String
  attendees : List Attendee
  reviews : List Review
deriving DecidableEq, Repr

/-- The fields of a User document used by the embedded handlers. -/
structure UserRec where
  name : String
  universityId : String
  universityName : String
  eventsAttended : List AttendedEntry
deriving DecidableEq, Repr

/-- An EventRegistration document.  The snapshot fields are optional: the
standalone `POST /api/event-registrations` route creates a record carrying
only the event and user references. -/
structure Registration where
  event : String
  user : String
  eventTitle : Option String
  studentName : Option String
  university : Option String
  universityName : Option String
  registeredAt : Option Nat
deriving DecidableEq, Repr

/-- The mutable state the handlers act on: the Event store, the
EventRegistration store and the User store. -/
structure St where
  events : List (String × EventRec)
  regs : List Registration
  users : List (String × UserRec)
deriving DecidableEq, Repr

/-- An HTTP response: status code and the message string of the JSON body. -/
structure Resp where
  status : Nat
  message : String
deriving DecidableEq, Repr

/-- JS numeric value of an optional numeric field: `undefined` reads as 0,
so both a missing field and an explicit 0 are falsy. -/
def jsNum : Option Nat → Nat
  | some n => n
  | none => 0

/-- `Event.findById` -/
def lookupEvent (st : St) (eid : String) : Option EventRec :=
  (st.events.find? (fun p => p.1 = eid)).map Prod.snd

/-- `event.save()`: write the updated event document back in place. -/
def setEvent (st : St) (eid : String) (ev : EventRec) : St :=
  { st with events := st.events.map (fun p => if p.1 = eid then (p.1, ev) else p) }

/-- `User.findById` -/
def lookupUser (st : St) (uid : String) : Option UserRec :=
  (st.users.find? (fun p => p.1 = uid)).map Prod.snd

/-- Write an updated user document back in place
(`User.findByIdAndUpdate`). -/
def setUser (st : St) (uid : String) (u : UserRec) : St :=
  { st with users := st.users.map (fun p => if p.1 = uid then (p.1, u) else p) }

/-- `event.registrationDeadline && new Date() > event.registrationDeadline`:
a set deadline has passed when `now` is strictly greater. -/
def deadlinePassed (ev : EventRec) (now : Nat) : Bool :=
  match ev.registrationDeadline with
  | some d => decide (d < now)
  | none => false

/-- `if (capacity && event.attendees.length >= capacity)` for a JS capacity
value `cap` (0 meaning falsy, i.e. no limit). -/
def capacityFull (cap len : Nat) : Bool :=
  cap != 0 && decide (cap ≤ len)

/-- The capacity value read by the first register handler:
`event.capacity` only. -/
def capFirst (ev : EventRec) : Nat := jsNum ev.capacity

/-- The capacity value read by the second register handler:
`event.maxAttendees || event.capacity`. -/
def capSecond (ev : EventRec) : Nat :=
  if jsNum ev.maxAttendees != 0 then jsNum ev.maxAttendees else jsNum ev.capacity

/-- `event.attendees.some(a => a.user.toString() === uid)` -/
def hasAttendee (ev : EventRec) (uid : String) : Bool :=
  ev.attendees.any (fun a => a.user == uid)

/-- Existing EventRegistration record for (event, user):
`EventRegistration.findOne({ event, user })` is some. -/
def hasStoreRecord (regs : List Registration) (eid uid : String) : Bool :=
  regs.any (fun r => r.event == eid && r.user == uid)

/-- `let universityName = (event.university && event.university.name) ||
(user.university && user.university.name)`, with the `University.findById`
fallback re-reading the same university document of the event, else the
sentinel. -/
def resolveUniversityName (ev : EventRec) (u : UserRec) : String :=
  if ev.universityName ≠ "" then ev.universityName
  else if u.universityName ≠ "" then u.universityName
  else if ev.universityName ≠ "" then ev.universityName
  else "Unknown University"

/-- The EventRegistration document built by both register handlers. -/
def mkRegistration (ev : EventRec) (u : UserRec) (eid uid : String) (now : Nat) :
    Registration :=
  { event := eid
  , user := uid
  , eventTitle := some (if ev.title ≠ "" then ev.title else "Unknown Event")
  , studentName := some u.name
  , university := some u.universityId
  , universityName := some (resolveUniversityName ev u)
  , registeredAt := some now }

/-- `event.attendees.push({ user: uid })`: a new attendee entry; the
schema default of the attended flag is false. -/
def pushAttendee (ev : EventRec) (uid : String) : EventRec :=
  { ev with attendees := ev.attendees ++ [{ user := uid, attended := false }] }

/-- `User.findByIdAndUpdate(uid, { $push: { eventsAttended: { event, attendedDate:
new Date() } } })` — a no-op when the user document does not exist. -/
def pushEventsAttended (st : St) (eid uid : String) (now : Nat) : St :=
  match lookupUser st uid with
  | some u => setUser st uid
      { u with eventsAttended := u.eventsAttended ++ [{ event := eid, attendedDate := now }] }
  | none => st

/-- Tail of the first register handler, entered after the attendee was
pushed and the event saved: fetch the user again, check the
EventRegistration store for a duplicate, then save the new record.
When the user document is missing, resolving the university name throws
unless the event university name short-circuits the `||` chain; in that
case the duplicate check still runs and the registration constructor then
throws inside the inner try block. -/
def registerFirstStore (st : St) (eid uid : String) (now : Nat) (ev : EventRec) : Resp × St :=
  match lookupUser st uid with
  | none =>
    if ev.universityName ≠ "" then
      if hasStoreRecord st.regs eid uid then
        (⟨400, "You are already registered for this event (eventregistrations)."⟩, st)
      else
        (⟨500, "Failed to save registration."⟩, st)
    else
      (⟨500, "Registration failed. Please try again."⟩, st)
  | some u =>
    if hasStoreRecord st.regs eid uid then
      (⟨400, "You are already registered for this event (eventregistrations)."⟩, st)
    else
      (⟨201, "Registered successfully"⟩,
       { st with regs := st.regs ++ [mkRegistration ev u eid uid now] })

/-- First `POST /:id/register` handler (the route Express dispatches, since
it is registered first).  Checks: event exists, registration required,
deadline, legacy `capacity` field, duplicate attendee; then pushes the
attendee and saves the event, pushes to the user's `eventsAttended`, and
only then checks the EventRegistration store for a duplicate before saving
the new registration record. -/
def registerFirst (st : St) (eid uid : String) (now : Nat) : Resp × St :=
  match lookupEvent st eid with
  | none => (⟨404, "Event not found"⟩, st)
  | some ev =>
    if !ev.isRegistrationRequired then
      (⟨400, "Registration is not required for this event"⟩, st)
    else if deadlinePassed ev now then
      (⟨400, "Registration deadline has passed"⟩, st)
    else if capacityFull (capFirst ev) ev.attendees.length then
      (⟨400, "Event is at full capacity"⟩, st)
    else if hasAttendee ev uid then
      (⟨400, "You are already registered for this event"⟩, st)
    else
      registerFirstStore
        (pushEventsAttended (setEvent st eid (pushAttendee ev uid)) eid uid now)
        eid uid now ev

/-- Tail of the second register handler, entered after the attendee was
pushed and the event saved: fetch the user and save the registration
record.  A missing user document makes the registration constructor throw
into the catch block after the event was already saved. -/
def registerSecondSave (st : St) (eid uid : String) (now : Nat) (ev : EventRec) : Resp × St :=
  match lookupUser st uid with
  | none => (⟨500, "Registration failed. Please try again."⟩, st)
  | some u =>
    (⟨201, "Registered successfully"⟩,
     { st with regs := st.regs ++ [mkRegistration ev u eid uid now] })

/-- Second `POST /:id/register` handler (registered later in the same file,
hence shadowed by the first at runtime).  All six checks run before any
effect; duplicates answer 409; the capacity check reads
`event.maxAttendees || event.capacity`. -/
def registerSecond (st : St) (eid uid : String) (now : Nat) : Resp × St :=
  match lookupEvent st eid with
  | none => (⟨404, "Event not found"⟩, st)
  | some ev =>
    if !ev.isRegistrationRequired then
      (⟨400, "Registration is not required for this event"⟩, st)
    else if deadlinePassed ev now then
      (⟨400, "Registration deadline has passed"⟩, st)
    else if capacityFull (capSecond ev) ev.attendees.length then
      (⟨400, "Event is at full capacity"⟩, st)
    else if hasAttendee ev uid then
      (⟨409, "You have already registered for this event."⟩, st)
    else if hasStoreRecord st.regs eid uid then
      (⟨409, "You have already registered for this event."⟩, st)
    else
      registerSecondSave (setEvent st eid (pushAttendee ev uid)) eid uid now ev

/-- The string rendering of an attendee subdocument, as produced by
`attendee.toString()` in the unregister filter (Mongoose renders the whole
subdocument, brace-delimited), never a bare id string. -/
def Attendee.render (a : Attendee) : String :=
  "\x7b user: " ++ a.user ++ ", attended: " ++ (if a.attended then "true" else "false") ++ " \x7d"

/-- `User.findByIdAndUpdate(uid, { $pull: { eventsAttended: { event: eid } } })`:
drop every eventsAttended entry of this event — a no-op when the user
document does not exist. -/
def pullEventsAttended (st : St) (eid uid : String) : St :=
  match lookupUser st uid with
  | some u => setUser st uid
      { u with eventsAttended := u.eventsAttended.filter (fun e => e.event ≠ eid) }
  | none => st

/-- `POST /:id/unregister` handler.  Note the filter compares
`attendee.toString()` (the rendering of the whole subdocument) with the
user id, exactly as the source does. -/
def unregister (st : St) (eid uid : String) (now : Nat) : Resp × St :=
  match lookupEvent st eid with
  | none => (⟨404, "Event not found"⟩, st)
  | some ev =>
    if ev.startDate ≤ now then
      (⟨400, "Cannot unregister from an event that has already started"⟩, st)
    else
      -- event.attendees = event.attendees.filter(a => a.toString() !== uid);
      -- then the eventsAttended pull, then res.json
      (⟨200, "Successfully unregistered from the event"⟩,
       pullEventsAttended
         (setEvent st eid { ev with attendees := ev.attendees.filter (fun a => a.render ≠ uid) })
         eid uid)

/-- Set the attended flag of the first attendee entry matching `uid`
(the mutation performed through `event.attendees.find(...)`). -/
def setAttendedFirst : List Attendee → String → Bool → List Attendee
  | [], _, _ => []
  | a :: rest, uid, b =>
    if a.user = uid then { a with attended := b } :: rest
    else a :: setAttendedFirst rest uid b

/-- `PUT /:id/attendees/:userId/attendance` handler (club president or
administrator only).  The 200 response body is the updated event, carried
here in the state; the message string is left empty. -/
def markAttendance (st : St) (eid callerId callerRole targetUid : String)
    (attended : Bool) : Resp × St :=
  match lookupEvent st eid with
  | none => (⟨404, "Event not found"⟩, st)
  | some ev =>
    if ev.clubPresident ≠ some callerId ∧ callerRole ≠ "Administrator" then
      (⟨403, "Not authorized to mark attendance for this event"⟩, st)
    else if !ev.attendees.any (fun a => a.user == targetUid) then
      (⟨404, "Attendee not found in this event"⟩, st)
    else
      (⟨200, ""⟩,
       setEvent st eid { ev with attendees := setAttendedFirst ev.attendees targetUid attended })

/-- `event.attendees.some(a => a.user.toString() === uid && a.attended)` -/
def attendedBy (ev : EventRec) (uid : String) : Bool :=
  ev.attendees.any (fun a => a.user == uid && a.attended)

/-- `event.reviews.find(r => r.user.toString() === uid)` is truthy. -/
def hasReviewBy (ev : EventRec) (uid : String) : Bool :=
  ev.reviews.any (fun r => r.user == uid)

/-- First `POST /:id/review` handler: only attendees marked attended may
review, one review per user, then push and save. -/
def submitReview (st : St) (eid uid : String) (rating : Nat) (comment : String) :
    Resp × St :=
  match lookupEvent st eid with
  | none => (⟨404, "Event not found"⟩, st)
  | some ev =>
    if !attendedBy ev uid then
      (⟨400, "You must attend the event before leaving a review"⟩, st)
    else if hasReviewBy ev uid then
      (⟨400, "You already reviewed this event"⟩, st)
    else
      (⟨200, "Review added successfully"⟩,
       setEvent st eid
         { ev with reviews := ev.reviews ++ [{ user := uid, rating := rating, comment := comment }] })

/-- `POST /api/event-registrations` (standalone route): requires both ids in
the body (JS truthiness: a missing field or empty string is falsy) and then
saves a bare registration record unconditionally. -/
def createEventRegistration (st : St) (eventId userId : Option String) : Resp × St :=
  match eventId, userId with
  | some e, some u =>
    if e = "" ∨ u = "" then
      (⟨400, "Event ID and User ID are required."⟩, st)
    else
      (⟨201, "Registration saved successfully."⟩,
       { st with regs := st.regs ++
           [{ event := e, user := u, eventTitle := none, studentName := none,
              university := none, universityName := none, registeredAt := none }] })
  | _, _ => (⟨400, "Event ID and User ID are required."⟩, st)

/-- Sequential execution of first-handler register calls: each list entry
is a caller id together with the wall-clock time of the call. -/
def runFirst (eid : String) (st : St) : List (String × Nat) → St
  | [] => st
  | c :: rest => runFirst eid (registerFirst st eid c.1 c.2).2 rest

/-- Sequential execution of second-handler register calls. -/
def runSecond (eid : String) (st : St) : List (String × Nat) → St
  | [] => st
  | c :: rest => runSecond eid (registerSecond st eid c.1 c.2).2 rest

/-- The capacity invariant enforced by the first handler: if the event
exists and its legacy `capacity` field is a set non-zero value, the
attendee count does not exceed it. -/
def capOkFirst (st : St) (eid : String) : Bool :=
  match lookupEvent st eid with
  | some ev => capFirst ev == 0 || decide (ev.attendees.length ≤ capFirst ev)
  | none => true

/-- The capacity invariant with the effective capacity of the spec
(`maxAttendees` if present else `capacity`), as read by the second
handler. -/
def capOkSecond (st : St) (eid : String) : Bool :=
  match lookupEvent st eid with
  | some ev => capSecond ev == 0 || decide (ev.attendees.length ≤ capSecond ev)
  | none => true

/-!  Concrete fixtures used by the counterexample, bug and witness
theorems below. -/

/-- A registration-required event with no deadline, no capacity fields,
no attendees. -/
def evBase : EventRec :=
  { title := "Tech Fest"
  , isRegistrationRequired := true
  , registrationDeadline := none
  , startDate := 1000
  , capacity := none
  , maxAttendees := none
  , universityId := "uni1"
  , universityName := "North University"
  , clubPresident := some "pres"
  , attendees := []
  , reviews := [] }

/-- A user of the same university with no attended events. -/
def mkUser (nm : String) : UserRec :=
  { name := nm, universityId := "uni1", universityName := "North University", eventsAttended := [] }

/-- A bare registration-store record for (event, user), as the standalone
`POST /api/event-registrations` route creates. -/
def bareReg (eid uid : String) : Registration :=
  { event := eid, user := uid, eventTitle := none, studentName := none
  , university := none, universityName := none, registeredAt := none }

/-- C1 counterexample state: user u is not an attendee but the
registration store already holds a record for (e, u). -/
def stC1 : St :=
  { events := [("e", evBase)], regs := [bareReg "e" "u"], users := [("u", mkUser "Alice")] }

/-- C2 counterexample state: maxAttendees is 1 (the effective capacity),
the legacy capacity field is unset, and the event already has exactly one
attendee. -/
def stC2 : St :=
  { events := [("e", { evBase with
                       maxAttendees := some 1,
                       attendees := [{ user := "b", attended := false }] })],
    regs := [], users := [("u2", mkUser "Bob")] }

/-- C3 failing-input state: user a is an attendee and the event has not
started. -/
def stC3 : St :=
  { events := [("e", { evBase with attendees := [{ user := "a", attended := false }] })],
    regs := [bareReg "e" "a"], users := [("a", mkUser "Ann")] }

/-- C4 counterexample state: maxAttendees is 2 and already reached, the
legacy capacity field is unset. -/
def stC4 : St :=
  { events := [("e", { evBase with
                       maxAttendees := some 2,
                       attendees := [{ user := "b", attended := false },
                                     { user := "c", attended := false }] })],
    regs := [], users := [("u4", mkUser "Cara")] }

/-- C5 counterexample state: capacity 1 and still empty, so the first
register succeeds and fills the event. -/
def stC5 : St :=
  { events := [("e", { evBase with capacity := some 1 })],
    regs := [], users := [("u5", mkUser "Dan")] }

/-- C8 state one: the caller is already an attendee. -/
def stC8a : St :=
  { events := [("e", { evBase with attendees := [{ user := "u8", attended := false }] })],
    regs := [], users := [("u8", mkUser "Eve")] }

/-- C8 state two: maxAttendees 1 already reached, legacy capacity unset. -/
def stC8b : St :=
  { events := [("e", { evBase with
                       maxAttendees := some 1,
                       attendees := [{ user := "f", attended := false }] })],
    regs := [], users := [("u8", mkUser "Eve")] }

/-- Witness state with a deadline already in the past at time 99. -/
def stWdl : St :=
  { events := [("e", { evBase with registrationDeadline := some 10 })],
    regs := [], users := [("u", mkUser "Wit")] }

/-- Witness event for the capacity-field claim: maxAttendees 1 already
reached, legacy capacity unset. -/
def evW4 : EventRec :=
  { evBase with
    maxAttendees := some 1,
    attendees := [{ user := "w4b", attended := false }] }

/-- Witness state for the capacity-field claim. -/
def stW4 : St :=
  { events := [("e", evW4)], regs := [], users := [("w4", mkUser "WitFour")] }

/-- Witness state for the capacity-invariant claim: legacy capacity 2. -/
def stW2w : St :=
  { events := [("e", { evBase with capacity := some 2, maxAttendees := some 2 })],
    regs := [],
    users := [("wa", mkUser "WitA"), ("wb", mkUser "WitB"), ("wc", mkUser "WitC")] }

/-- Witness state for the repeated-register claim. -/
def stW5 : St :=
  { events := [("e", evBase)], regs := [], users := [("w5", mkUser "WitFive")] }

/-- Witness event for the review-flow claim: the caller is an attendee not
yet marked attended. -/
def evWrev : EventRec :=
  { evBase with attendees := [{ user := "u", attended := false }] }

/-- Witness state for the review-flow claim. -/
def stWrev2 : St :=
  { events := [("e", evWrev)], regs := [], users := [("u", mkUser "Wit")] }

/-- Witness state for the standalone-registration claim. -/
def stW9 : St := { events := [], regs := [bareReg "e9" "u9"], users := [] }

/-- Witness user for the user-record effects claim. -/
def uW10 : UserRec := mkUser "WitTen"

/-- Witness state for the user-record effects claim. -/
def stW10 : St :=
  { events := [("e", evBase)], regs := [], users := [("w10", uW10)] }

end Uniconnect

/-!  Helper lemmas about the store primitives. -/

namespace Uniconnect

theorem find?_set_self {β : Type} (l : List (String × β)) (k : String) (x : β)
    (h : (l.find? (fun p => p.1 = k)).isSome = true) :
    (l.map (fun p => if p.1 = k then (p.1, x) else p)).find? (fun p => p.1 = k) = some (k, x) := by
  induction l with
  | nil => simp at h
  | cons a t ih =>
    by_cases hk : a.1 = k
    · have hd : (decide (a.1 = k)) = true := decide_eq_true hk
      simp only [List.map_cons, if_pos hk, List.find?_cons]
      dsimp only
      rw [hd, hk]
    · have hd : (decide (a.1 = k)) = false := decide_eq_false hk
      simp only [List.find?_cons] at h
      simp only [List.map_cons, if_neg hk, List.find?_cons]
      rw [hd] at h ⊢
      exact ih h

theorem find?_set_ne {β : Type} (l : List (String × β)) (k k2 : String) (x : β) (h : k2 ≠ k) :
    (l.map (fun p => if p.1 = k then (p.1, x) else p)).find? (fun p => p.1 = k2) =
      l.find? (fun p => p.1 = k2) := by
  induction l with
  | nil => simp
  | cons a t ih =>
    by_cases hk : a.1 = k
    · have hk2 : ¬ a.1 = k2 := fun hh => h (hh ▸ hk)
      have hd : (decide (a.1 = k2)) = false := decide_eq_false hk2
      simp only [List.map_cons, if_pos hk, List.find?_cons]
      dsimp only
      rw [hd]
      exact ih
    · by_cases hk2 : a.1 = k2
      · have hd : (decide (a.1 = k2)) = true := decide_eq_true hk2
        simp only [List.map_cons, if_neg hk, List.find?_cons]
        rw [hd]
      · have hd : (decide (a.1 = k2)) = false := decide_eq_false hk2
        simp only [List.map_cons, if_neg hk, List.find?_cons]
        rw [hd]
        exact ih

theorem setEvent_regs (st : St) (eid : String) (ev : EventRec) :
    (setEvent st eid ev).regs = st.regs := rfl

theorem setEvent_users (st : St) (eid : String) (ev : EventRec) :
    (setEvent st eid ev).users = st.users := rfl

theorem setUser_events (st : St) (uid : String) (u : UserRec) :
    (setUser st uid u).events = st.events := rfl

theorem setUser_regs (st : St) (uid : String) (u : UserRec) :
    (setUser st uid u).regs = st.regs := rfl

theorem lookupEvent_congr {s1 s2 : St} (h : s1.events = s2.events) (eid : String) :
    lookupEvent s1 eid = lookupEvent s2 eid := by
  unfold lookupEvent; rw [h]

theorem lookupUser_congr {s1 s2 : St} (h : s1.users = s2.users) (uid : String) :
    lookupUser s1 uid = lookupUser s2 uid := by
  unfold lookupUser; rw [h]

theorem lookupEvent_setEvent_self {st : St} {eid : String} {ev : EventRec} (x : EventRec)
    (h : lookupEvent st eid = some ev) :
    lookupEvent (setEvent st eid x) eid = some x := by
  unfold lookupEvent setEvent at *
  have hs : (st.events.find? (fun p => p.1 = eid)).isSome = true := by
    cases hf : st.events.find? (fun p => p.1 = eid) <;> rw [hf] at h <;> simp at h ⊢
  simp only []
  rw [find?_set_self st.events eid x hs]
  rfl

theorem lookupEvent_setEvent_ne {st : St} {eid eid2 : String} (x : EventRec) (h : eid2 ≠ eid) :
    lookupEvent (setEvent st eid x) eid2 = lookupEvent st eid2 := by
  unfold lookupEvent setEvent
  simp only []
  rw [find?_set_ne st.events eid eid2 x h]

theorem lookupUser_setUser_self {st : St} {uid : String} {u : UserRec} (x : UserRec)
    (h : lookupUser st uid = some u) :
    lookupUser (setUser st uid x) uid = some x := by
  unfold lookupUser setUser at *
  have hs : (st.users.find? (fun p => p.1 = uid)).isSome = true := by
    cases hf : st.users.find? (fun p => p.1 = uid) <;> rw [hf] at h <;> simp at h ⊢
  simp only []
  rw [find?_set_self st.users uid x hs]
  rfl

theorem lookupUser_setUser_ne {st : St} {uid uid2 : String} (x : UserRec) (h : uid2 ≠ uid) :
    lookupUser (setUser st uid x) uid2 = lookupUser st uid2 := by
  unfold lookupUser setUser
  simp only []
  rw [find?_set_ne st.users uid uid2 x h]

end Uniconnect

/-!  Frame lemmas for the user-list side effects. -/

namespace Uniconnect

theorem pushEventsAttended_events (st : St) (eid uid : String) (now : Nat) :
    (pushEventsAttended st eid uid now).events = st.events := by
  unfold pushEventsAttended
  split <;> rfl

theorem pushEventsAttended_regs (st : St) (eid uid : String) (now : Nat) :
    (pushEventsAttended st eid uid now).regs = st.regs := by
  unfold pushEventsAttended
  split <;> rfl

theorem pullEventsAttended_events (st : St) (eid uid : String) :
    (pullEventsAttended st eid uid).events = st.events := by
  unfold pullEventsAttended
  split <;> rfl

theorem pullEventsAttended_regs (st : St) (eid uid : String) :
    (pullEventsAttended st eid uid).regs = st.regs := by
  unfold pullEventsAttended
  split <;> rfl

theorem lookupUser_pushEventsAttended_self {st : St} {uid : String} {u : UserRec}
    (eid : String) (now : Nat) (h : lookupUser st uid = some u) :
    lookupUser (pushEventsAttended st eid uid now) uid =
      some { u with eventsAttended := u.eventsAttended ++ [{ event := eid, attendedDate := now }] } := by
  unfold pushEventsAttended
  rw [h]
  exact lookupUser_setUser_self _ h

theorem lookupUser_pushEventsAttended_none {st : St} {uid : String}
    (eid : String) (now : Nat) (h : lookupUser st uid = none) :
    lookupUser (pushEventsAttended st eid uid now) uid = none := by
  unfold pushEventsAttended
  rw [h]
  exact h

theorem lookupUser_pushEventsAttended_ne {st : St} {uid uid2 : String}
    (eid : String) (now : Nat) (h : uid2 ≠ uid) :
    lookupUser (pushEventsAttended st eid uid now) uid2 = lookupUser st uid2 := by
  unfold pushEventsAttended
  split
  · exact lookupUser_setUser_ne _ h
  · rfl

theorem lookupUser_pullEventsAttended_self {st : St} {uid : String} {u : UserRec}
    (eid : String) (h : lookupUser st uid = some u) :
    lookupUser (pullEventsAttended st eid uid) uid =
      some { u with eventsAttended := u.eventsAttended.filter (fun e => e.event ≠ eid) } := by
  unfold pullEventsAttended
  rw [h]
  exact lookupUser_setUser_self _ h

theorem lookupUser_pullEventsAttended_ne {st : St} {uid uid2 : String}
    (eid : String) (h : uid2 ≠ uid) :
    lookupUser (pullEventsAttended st eid uid) uid2 = lookupUser st uid2 := by
  unfold pullEventsAttended
  split
  · exact lookupUser_setUser_ne _ h
  · rfl

/-!  Facts about `pushAttendee`. -/

theorem pushAttendee_length (ev : EventRec) (uid : String) :
    (pushAttendee ev uid).attendees.length = ev.attendees.length + 1 := by
  simp [pushAttendee]

theorem hasAttendee_pushAttendee_self (ev : EventRec) (uid : String) :
    hasAttendee (pushAttendee ev uid) uid = true := by
  simp [hasAttendee, pushAttendee]

theorem pushAttendee_isRegistrationRequired (ev : EventRec) (uid : String) :
    (pushAttendee ev uid).isRegistrationRequired = ev.isRegistrationRequired := rfl

theorem pushAttendee_capacity (ev : EventRec) (uid : String) :
    (pushAttendee ev uid).capacity = ev.capacity := rfl

theorem pushAttendee_maxAttendees (ev : EventRec) (uid : String) :
    (pushAttendee ev uid).maxAttendees = ev.maxAttendees := rfl

end Uniconnect

/-!  Branch characterizations of the first register handler. -/

namespace Uniconnect

theorem registerFirst_notFound {st : St} {eid : String} (uid : String) (now : Nat)
    (h : lookupEvent st eid = none) :
    registerFirst st eid uid now = (⟨404, "Event not found"⟩, st) := by
  unfold registerFirst
  rw [h]

theorem registerFirst_notRequired {st : St} {eid : String} {ev : EventRec} (uid : String) (now : Nat)
    (h : lookupEvent st eid = some ev) (h1 : ev.isRegistrationRequired = false) :
    registerFirst st eid uid now = (⟨400, "Registration is not required for this event"⟩, st) := by
  unfold registerFirst
  rw [h]
  simp [h1]

theorem registerFirst_deadline {st : St} {eid : String} {ev : EventRec} (uid : String) {now : Nat}
    (h : lookupEvent st eid = some ev) (h1 : ev.isRegistrationRequired = true)
    (h2 : deadlinePassed ev now = true) :
    registerFirst st eid uid now = (⟨400, "Registration deadline has passed"⟩, st) := by
  unfold registerFirst
  rw [h]
  simp [h1, h2]

theorem registerFirst_capacity {st : St} {eid : String} {ev : EventRec} (uid : String) {now : Nat}
    (h : lookupEvent st eid = some ev) (h1 : ev.isRegistrationRequired = true)
    (h2 : deadlinePassed ev now = false)
    (h3 : capacityFull (capFirst ev) ev.attendees.length = true) :
    registerFirst st eid uid now = (⟨400, "Event is at full capacity"⟩, st) := by
  unfold registerFirst
  rw [h]
  simp [h1, h2, h3]

theorem registerFirst_dupAttendee {st : St} {eid uid : String} {ev : EventRec} {now : Nat}
    (h : lookupEvent st eid = some ev) (h1 : ev.isRegistrationRequired = true)
    (h2 : deadlinePassed ev now = false)
    (h3 : capacityFull (capFirst ev) ev.attendees.length = false)
    (h4 : hasAttendee ev uid = true) :
    registerFirst st eid uid now = (⟨400, "You are already registered for this event"⟩, st) := by
  unfold registerFirst
  rw [h]
  simp [h1, h2, h3, h4]

theorem registerFirst_effects {st : St} {eid uid : String} {ev : EventRec} {now : Nat}
    (h : lookupEvent st eid = some ev) (h1 : ev.isRegistrationRequired = true)
    (h2 : deadlinePassed ev now = false)
    (h3 : capacityFull (capFirst ev) ev.attendees.length = false)
    (h4 : hasAttendee ev uid = false) :
    registerFirst st eid uid now =
      registerFirstStore
        (pushEventsAttended (setEvent st eid (pushAttendee ev uid)) eid uid now)
        eid uid now ev := by
  unfold registerFirst
  rw [h]
  simp [h1, h2, h3, h4]

/-- The three outcomes of the store stage of the first handler: a 400
duplicate answer with the state passed in, a 500 with the state passed in,
or a 201 that appends exactly the new registration record. -/
theorem registerFirstStore_trichotomy (st : St) (eid uid : String) (now : Nat) (ev : EventRec) :
    ((registerFirstStore st eid uid now ev).1 =
        ⟨400, "You are already registered for this event (eventregistrations)."⟩ ∧
      (registerFirstStore st eid uid now ev).2 = st ∧
      hasStoreRecord st.regs eid uid = true) ∨
    (((registerFirstStore st eid uid now ev).1 = ⟨500, "Failed to save registration."⟩ ∨
       (registerFirstStore st eid uid now ev).1 = ⟨500, "Registration failed. Please try again."⟩) ∧
      (registerFirstStore st eid uid now ev).2 = st) ∨
    ((registerFirstStore st eid uid now ev).1 = ⟨201, "Registered successfully"⟩ ∧
      ∃ u, lookupUser st uid = some u ∧
        hasStoreRecord st.regs eid uid = false ∧
        (registerFirstStore st eid uid now ev).2 =
          { st with regs := st.regs ++ [mkRegistration ev u eid uid now] }) := by
  unfold registerFirstStore
  cases hu : lookupUser st uid with
  | none =>
    by_cases hn : ev.universityName ≠ ""
    · by_cases hr : hasStoreRecord st.regs eid uid
      · exact Or.inl (by simp [hn, hr])
      · exact Or.inr (Or.inl (by simp [hn, hr]))
    · exact Or.inr (Or.inl (by simp [hn]))
  | some u =>
    by_cases hr : hasStoreRecord st.regs eid uid
    · exact Or.inl (by simp [hr])
    · exact Or.inr (Or.inr (by simp [hr]))

end Uniconnect

/-!  Branch characterizations of the second register handler and of the
other handlers. -/

namespace Uniconnect

theorem registerSecond_notFound {st : St} {eid : String} (uid : String) (now : Nat)
    (h : lookupEvent st eid = none) :
    registerSecond st eid uid now = (⟨404, "Event not found"⟩, st) := by
  unfold registerSecond
  rw [h]

theorem registerSecond_notRequired {st : St} {eid : String} {ev : EventRec} (uid : String) (now : Nat)
    (h : lookupEvent st eid = some ev) (h1 : ev.isRegistrationRequired = false) :
    registerSecond st eid uid now = (⟨400, "Registration is not required for this event"⟩, st) := by
  unfold registerSecond
  rw [h]
  simp [h1]

theorem registerSecond_deadline {st : St} {eid : String} {ev : EventRec} (uid : String) {now : Nat}
    (h : lookupEvent st eid = some ev) (h1 : ev.isRegistrationRequired = true)
    (h2 : deadlinePassed ev now = true) :
    registerSecond st eid uid now = (⟨400, "Registration deadline has passed"⟩, st) := by
  unfold registerSecond
  rw [h]
  simp [h1, h2]

theorem registerSecond_capacity {st : St} {eid : String} {ev : EventRec} (uid : String) {now : Nat}
    (h : lookupEvent st eid = some ev) (h1 : ev.isRegistrationRequired = true)
    (h2 : deadlinePassed ev now = false)
    (h3 : capacityFull (capSecond ev) ev.attendees.length = true) :
    registerSecond st eid uid now = (⟨400, "Event is at full capacity"⟩, st) := by
  unfold registerSecond
  rw [h]
  simp [h1, h2, h3]

theorem registerSecond_dupAttendee {st : St} {eid uid : String} {ev : EventRec} {now : Nat}
    (h : lookupEvent st eid = some ev) (h1 : ev.isRegistrationRequired = true)
    (h2 : deadlinePassed ev now = false)
    (h3 : capacityFull (capSecond ev) ev.attendees.length = false)
    (h4 : hasAttendee ev uid = true) :
    registerSecond st eid uid now = (⟨409, "You have already registered for this event."⟩, st) := by
  unfold registerSecond
  rw [h]
  simp [h1, h2, h3, h4]

theorem registerSecond_dupStore {st : St} {eid uid : String} {ev : EventRec} {now : Nat}
    (h : lookupEvent st eid = some ev) (h1 : ev.isRegistrationRequired = true)
    (h2 : deadlinePassed ev now = false)
    (h3 : capacityFull (capSecond ev) ev.attendees.length = false)
    (h4 : hasAttendee ev uid = false)
    (h5 : hasStoreRecord st.regs eid uid = true) :
    registerSecond st eid uid now = (⟨409, "You have already registered for this event."⟩, st) := by
  unfold registerSecond
  rw [h]
  simp [h1, h2, h3, h4, h5]

theorem registerSecond_effects {st : St} {eid uid : String} {ev : EventRec} {now : Nat}
    (h : lookupEvent st eid = some ev) (h1 : ev.isRegistrationRequired = true)
    (h2 : deadlinePassed ev now = false)
    (h3 : capacityFull (capSecond ev) ev.attendees.length = false)
    (h4 : hasAttendee ev uid = false)
    (h5 : hasStoreRecord st.regs eid uid = false) :
    registerSecond st eid uid now =
      registerSecondSave (setEvent st eid (pushAttendee ev uid)) eid uid now ev := by
  unfold registerSecond
  rw [h]
  simp [h1, h2, h3, h4, h5]

/-- The two outcomes of the save stage of the second handler. -/
theorem registerSecondSave_cases (st : St) (eid uid : String) (now : Nat) (ev : EventRec) :
    ((registerSecondSave st eid uid now ev).1.status = 500 ∧
      (registerSecondSave st eid uid now ev).2 = st) ∨
    ((registerSecondSave st eid uid now ev).1 = ⟨201, "Registered successfully"⟩ ∧
      ∃ u, lookupUser st uid = some u ∧
        (registerSecondSave st eid uid now ev).2 =
          { st with regs := st.regs ++ [mkRegistration ev u eid uid now] }) := by
  unfold registerSecondSave
  cases hu : lookupUser st uid with
  | none => exact Or.inl (by simp)
  | some u => exact Or.inr (by simp)

/-!  Unregister. -/

theorem unregister_notFound {st : St} {eid : String} (uid : String) (now : Nat)
    (h : lookupEvent st eid = none) :
    unregister st eid uid now = (⟨404, "Event not found"⟩, st) := by
  unfold unregister
  rw [h]

theorem unregister_started {st : St} {eid : String} {ev : EventRec} (uid : String) {now : Nat}
    (h : lookupEvent st eid = some ev) (h1 : ev.startDate ≤ now) :
    unregister st eid uid now =
      (⟨400, "Cannot unregister from an event that has already started"⟩, st) := by
  unfold unregister
  rw [h]
  simp [h1]

theorem unregister_open {st : St} {eid : String} {ev : EventRec} (uid : String) {now : Nat}
    (h : lookupEvent st eid = some ev) (h1 : ¬ ev.startDate ≤ now) :
    unregister st eid uid now =
      (⟨200, "Successfully unregistered from the event"⟩,
       pullEventsAttended
         (setEvent st eid { ev with attendees := ev.attendees.filter (fun a => a.render ≠ uid) })
         eid uid) := by
  unfold unregister
  rw [h]
  simp [h1]

end Uniconnect

/-!  Frame lemmas for the tails of the register handlers, and lemmas for
the review and attendance handlers. -/

namespace Uniconnect

theorem registerFirstStore_events (st : St) (eid uid : String) (now : Nat) (ev : EventRec) :
    ((registerFirstStore st eid uid now ev).2).events = st.events := by
  unfold registerFirstStore
  split <;> split <;> first | rfl | (split <;> rfl)

theorem registerFirstStore_users (st : St) (eid uid : String) (now : Nat) (ev : EventRec) :
    ((registerFirstStore st eid uid now ev).2).users = st.users := by
  unfold registerFirstStore
  split <;> split <;> first | rfl | (split <;> rfl)

theorem registerSecondSave_events (st : St) (eid uid : String) (now : Nat) (ev : EventRec) :
    ((registerSecondSave st eid uid now ev).2).events = st.events := by
  unfold registerSecondSave
  split <;> rfl

theorem registerSecondSave_users (st : St) (eid uid : String) (now : Nat) (ev : EventRec) :
    ((registerSecondSave st eid uid now ev).2).users = st.users := by
  unfold registerSecondSave
  split <;> rfl

theorem submitReview_notFound {st : St} {eid : String} (uid : String) (rating : Nat) (comment : String)
    (h : lookupEvent st eid = none) :
    submitReview st eid uid rating comment = (⟨404, "Event not found"⟩, st) := by
  unfold submitReview
  rw [h]

theorem submitReview_notAttended {st : St} {eid uid : String} {ev : EventRec}
    (rating : Nat) (comment : String)
    (h : lookupEvent st eid = some ev) (h1 : attendedBy ev uid = false) :
    submitReview st eid uid rating comment =
      (⟨400, "You must attend the event before leaving a review"⟩, st) := by
  unfold submitReview
  rw [h]
  simp [h1]

theorem submitReview_dup {st : St} {eid uid : String} {ev : EventRec}
    (rating : Nat) (comment : String)
    (h : lookupEvent st eid = some ev) (h1 : attendedBy ev uid = true)
    (h2 : hasReviewBy ev uid = true) :
    submitReview st eid uid rating comment = (⟨400, "You already reviewed this event"⟩, st) := by
  unfold submitReview
  rw [h]
  simp [h1, h2]

theorem submitReview_success {st : St} {eid uid : String} {ev : EventRec}
    (rating : Nat) (comment : String)
    (h : lookupEvent st eid = some ev) (h1 : attendedBy ev uid = true)
    (h2 : hasReviewBy ev uid = false) :
    submitReview st eid uid rating comment =
      (⟨200, "Review added successfully"⟩,
       setEvent st eid
         { ev with reviews := ev.reviews ++ [{ user := uid, rating := rating, comment := comment }] }) := by
  unfold submitReview
  rw [h]
  simp [h1, h2]

theorem setAttendedFirst_attended (l : List Attendee) (uid : String)
    (h : l.any (fun a => a.user == uid) = true) :
    (setAttendedFirst l uid true).any (fun a => a.user == uid && a.attended) = true := by
  induction l with
  | nil => simp at h
  | cons a t ih =>
    by_cases hk : a.user = uid
    · simp [setAttendedFirst, hk]
    · simp only [List.any_cons] at h
      simp only [setAttendedFirst, if_neg hk, List.any_cons]
      have hb : (a.user == uid) = false := by
        simp [hk]
      simp only [hb, Bool.false_or, Bool.false_and] at h ⊢
      exact ih h

/-- The attendance handler when the event is missing. -/
theorem markAttendance_notFound {st : St} {eid : String} (callerId callerRole targetUid : String)
    (b : Bool) (h : lookupEvent st eid = none) :
    markAttendance st eid callerId callerRole targetUid b = (⟨404, "Event not found"⟩, st) := by
  unfold markAttendance
  rw [h]

/-- The attendance handler when the caller is neither the club president
nor an administrator. -/
theorem markAttendance_forbidden {st : St} {eid callerId callerRole targetUid : String} {ev : EventRec}
    (b : Bool) (h : lookupEvent st eid = some ev)
    (hauth : ev.clubPresident ≠ some callerId ∧ callerRole ≠ "Administrator") :
    markAttendance st eid callerId callerRole targetUid b =
      (⟨403, "Not authorized to mark attendance for this event"⟩, st) := by
  unfold markAttendance
  rw [h]
  simp [hauth]

/-- The attendance handler when the target user is not an attendee. -/
theorem markAttendance_noAttendee {st : St} {eid callerId callerRole targetUid : String} {ev : EventRec}
    (b : Bool) (h : lookupEvent st eid = some ev)
    (hauth : ¬ (ev.clubPresident ≠ some callerId ∧ callerRole ≠ "Administrator"))
    (hatt : ev.attendees.any (fun a => a.user == targetUid) = false) :
    markAttendance st eid callerId callerRole targetUid b =
      (⟨404, "Attendee not found in this event"⟩, st) := by
  unfold markAttendance
  rw [h]
  simp [hauth, hatt]

/-- The attendance handler on its success path. -/
theorem markAttendance_success {st : St} {eid callerId callerRole targetUid : String} {ev : EventRec}
    (b : Bool) (h : lookupEvent st eid = some ev)
    (hauth : ¬ (ev.clubPresident ≠ some callerId ∧ callerRole ≠ "Administrator"))
    (hatt : ev.attendees.any (fun a => a.user == targetUid) = true) :
    markAttendance st eid callerId callerRole targetUid b =
      (⟨200, ""⟩, setEvent st eid { ev with attendees := setAttendedFirst ev.attendees targetUid b }) := by
  unfold markAttendance
  rw [h]
  simp [hauth, hatt]

/-- Inversion of a 200 answer of the attendance handler. -/
theorem markAttendance_200 {st : St} {eid callerId callerRole targetUid : String} {b : Bool}
    (h : (markAttendance st eid callerId callerRole targetUid b).1.status = 200) :
    ∃ ev, lookupEvent st eid = some ev ∧
      ev.attendees.any (fun a => a.user == targetUid) = true ∧
      (markAttendance st eid callerId callerRole targetUid b).2 =
        setEvent st eid { ev with attendees := setAttendedFirst ev.attendees targetUid b } := by
  cases hev : lookupEvent st eid with
  | none => rw [markAttendance_notFound callerId callerRole targetUid b hev] at h; simp at h
  | some ev =>
    by_cases hauth : ev.clubPresident ≠ some callerId ∧ callerRole ≠ "Administrator"
    · rw [markAttendance_forbidden b hev hauth] at h
      simp at h
    · cases hatt : ev.attendees.any (fun a => a.user == targetUid) with
      | false =>
        rw [markAttendance_noAttendee b hev hauth hatt] at h
        simp at h
      | true =>
        rw [markAttendance_success b hev hauth hatt]
        exact ⟨ev, rfl, hatt, rfl⟩


end Uniconnect

/-!  Outcome enumeration for the two register handlers. -/

namespace Uniconnect

/-- Every run of the first register handler either stops at one of the
five pre-effect rejections with the state unchanged, or passes all five
checks and enters the effect stage. -/
theorem registerFirst_shape (st : St) (eid uid : String) (now : Nat) :
    (∃ r, registerFirst st eid uid now = (r, st) ∧
      (r = ⟨404, "Event not found"⟩ ∨
       r = ⟨400, "Registration is not required for this event"⟩ ∨
       r = ⟨400, "Registration deadline has passed"⟩ ∨
       r = ⟨400, "Event is at full capacity"⟩ ∨
       r = ⟨400, "You are already registered for this event"⟩)) ∨
    (∃ ev, lookupEvent st eid = some ev ∧
      ev.isRegistrationRequired = true ∧
      deadlinePassed ev now = false ∧
      capacityFull (capFirst ev) ev.attendees.length = false ∧
      hasAttendee ev uid = false ∧
      registerFirst st eid uid now =
        registerFirstStore
          (pushEventsAttended (setEvent st eid (pushAttendee ev uid)) eid uid now)
          eid uid now ev) := by
  cases hev : lookupEvent st eid with
  | none =>
    exact Or.inl ⟨_, registerFirst_notFound uid now hev, Or.inl rfl⟩
  | some ev =>
    cases h1 : ev.isRegistrationRequired with
    | false =>
      exact Or.inl ⟨_, registerFirst_notRequired uid now hev h1, Or.inr (Or.inl rfl)⟩
    | true =>
      cases h2 : deadlinePassed ev now with
      | true =>
        exact Or.inl ⟨_, registerFirst_deadline uid hev h1 h2, Or.inr (Or.inr (Or.inl rfl))⟩
      | false =>
        cases h3 : capacityFull (capFirst ev) ev.attendees.length with
        | true =>
          exact Or.inl ⟨_, registerFirst_capacity uid hev h1 h2 h3,
            Or.inr (Or.inr (Or.inr (Or.inl rfl)))⟩
        | false =>
          cases h4 : hasAttendee ev uid with
          | true =>
            exact Or.inl ⟨_, registerFirst_dupAttendee hev h1 h2 h3 h4,
              Or.inr (Or.inr (Or.inr (Or.inr rfl)))⟩
          | false =>
            exact Or.inr ⟨ev, rfl, h1, h2, h3, h4, registerFirst_effects hev h1 h2 h3 h4⟩

/-- Every run of the second register handler either stops at one of the
six pre-effect rejections with the state unchanged, or passes all six
checks and enters the save stage. -/
theorem registerSecond_shape (st : St) (eid uid : String) (now : Nat) :
    (∃ r, registerSecond st eid uid now = (r, st) ∧
      (r = ⟨404, "Event not found"⟩ ∨
       r = ⟨400, "Registration is not required for this event"⟩ ∨
       r = ⟨400, "Registration deadline has passed"⟩ ∨
       r = ⟨400, "Event is at full capacity"⟩ ∨
       r = ⟨409, "You have already registered for this event."⟩)) ∨
    (∃ ev, lookupEvent st eid = some ev ∧
      ev.isRegistrationRequired = true ∧
      deadlinePassed ev now = false ∧
      capacityFull (capSecond ev) ev.attendees.length = false ∧
      hasAttendee ev uid = false ∧
      hasStoreRecord st.regs eid uid = false ∧
      registerSecond st eid uid now =
        registerSecondSave (setEvent st eid (pushAttendee ev uid)) eid uid now ev) := by
  cases hev : lookupEvent st eid with
  | none =>
    exact Or.inl ⟨_, registerSecond_notFound uid now hev, Or.inl rfl⟩
  | some ev =>
    cases h1 : ev.isRegistrationRequired with
    | false =>
      exact Or.inl ⟨_, registerSecond_notRequired uid now hev h1, Or.inr (Or.inl rfl)⟩
    | true =>
      cases h2 : deadlinePassed ev now with
      | true =>
        exact Or.inl ⟨_, registerSecond_deadline uid hev h1 h2, Or.inr (Or.inr (Or.inl rfl))⟩
      | false =>
        cases h3 : capacityFull (capSecond ev) ev.attendees.length with
        | true =>
          exact Or.inl ⟨_, registerSecond_capacity uid hev h1 h2 h3,
            Or.inr (Or.inr (Or.inr (Or.inl rfl)))⟩
        | false =>
          cases h4 : hasAttendee ev uid with
          | true =>
            exact Or.inl ⟨_, registerSecond_dupAttendee hev h1 h2 h3 h4,
              Or.inr (Or.inr (Or.inr (Or.inr rfl)))⟩
          | false =>
            cases h5 : hasStoreRecord st.regs eid uid with
            | true =>
              exact Or.inl ⟨_, registerSecond_dupStore hev h1 h2 h3 h4 h5,
                Or.inr (Or.inr (Or.inr (Or.inr rfl)))⟩
            | false =>
              exact Or.inr ⟨ev, rfl, h1, h2, h3, h4, rfl,
                registerSecond_effects hev h1 h2 h3 h4 h5⟩

/-- A capacity value of 0 (unset `capacity` and unset or 0 `maxAttendees`)
never triggers the full-capacity rejection. -/
theorem capacityFull_zero (len : Nat) : capacityFull 0 len = false := rfl

/-- A passed capacity check with a set capacity bounds the current attendee
count strictly. -/
theorem capacityFull_false_lt {cap len : Nat}
    (h : capacityFull cap len = false) (hc : cap ≠ 0) : len < cap := by
  unfold capacityFull at h
  simp [hc] at h
  omega

end Uniconnect

/-!  Derived facts: failure framing, duplicate-store effect, success
inversion and capacity preservation. -/

namespace Uniconnect

theorem capFirst_pushAttendee (ev : EventRec) (uid : String) :
    capFirst (pushAttendee ev uid) = capFirst ev := rfl

theorem capSecond_pushAttendee (ev : EventRec) (uid : String) :
    capSecond (pushAttendee ev uid) = capSecond ev := rfl

/-- A first-handler run answering 404, or 400 with any message other than
the registration-store duplicate message, left the state untouched. -/
theorem registerFirst_failure_frame (st : St) (eid uid : String) (now : Nat)
    (h : (registerFirst st eid uid now).1.status = 404 ∨
      ((registerFirst st eid uid now).1.status = 400 ∧
        (registerFirst st eid uid now).1.message ≠
          "You are already registered for this event (eventregistrations).")) :
    (registerFirst st eid uid now).2 = st := by
  rcases registerFirst_shape st eid uid now with ⟨r, heq, _⟩ | ⟨ev, hev, h1, h2, h3, h4, heq⟩
  · rw [heq]
  · exfalso
    rw [heq] at h
    rcases registerFirstStore_trichotomy
      (pushEventsAttended (setEvent st eid (pushAttendee ev uid)) eid uid now) eid uid now ev with
      ⟨hr, _, _⟩ | ⟨hr, _⟩ | ⟨hr, _⟩
    · rcases h with h | ⟨_, hmsg⟩
      · rw [hr] at h; simp at h
      · rw [hr] at hmsg; simp at hmsg
    · rcases hr with hr | hr
      · rcases h with h | ⟨hst, _⟩
        · rw [hr] at h; simp at h
        · rw [hr] at hst; simp at hst
      · rcases h with h | ⟨hst, _⟩
        · rw [hr] at h; simp at h
        · rw [hr] at hst; simp at hst
    · rcases h with h | ⟨hst, _⟩
      · rw [hr] at h; simp at h
      · rw [hr] at hst; simp at hst

/-- A first-handler run that answers with the registration-store duplicate
message has already appended the attendee and saved the event, while the
registration store itself is unchanged. -/
theorem registerFirst_dupStore_effect (st : St) (eid uid : String) (now : Nat)
    (h : (registerFirst st eid uid now).1.message =
      "You are already registered for this event (eventregistrations).") :
    ((registerFirst st eid uid now).2).regs = st.regs ∧
    ∃ ev, lookupEvent st eid = some ev ∧
      lookupEvent (registerFirst st eid uid now).2 eid = some (pushAttendee ev uid) := by
  rcases registerFirst_shape st eid uid now with ⟨r, heq, hcase⟩ | ⟨ev, hev, h1, h2, h3, h4, heq⟩
  · exfalso
    rw [heq] at h
    rcases hcase with hc | hc | hc | hc | hc <;> rw [hc] at h <;> simp at h
  · rw [heq] at h ⊢
    rcases registerFirstStore_trichotomy
      (pushEventsAttended (setEvent st eid (pushAttendee ev uid)) eid uid now) eid uid now ev with
      ⟨_, hs, _⟩ | ⟨hr, _⟩ | ⟨hr, _⟩
    · rw [hs]
      constructor
      · rw [pushEventsAttended_regs, setEvent_regs]
      · refine ⟨ev, hev, ?_⟩
        rw [lookupEvent_congr (pushEventsAttended_events _ _ _ _) eid]
        exact lookupEvent_setEvent_self _ hev
    · exfalso
      rcases hr with hr | hr <;> rw [hr] at h <;> simp at h
    · exfalso
      rw [hr] at h; simp at h

/-- A second-handler run that is neither a 201 success nor a 500 failure
left the state untouched. -/
theorem registerSecond_failure_frame (st : St) (eid uid : String) (now : Nat)
    (h : (registerSecond st eid uid now).1.status ≠ 201 ∧
      (registerSecond st eid uid now).1.status ≠ 500) :
    (registerSecond st eid uid now).2 = st := by
  rcases registerSecond_shape st eid uid now with ⟨r, heq, _⟩ | ⟨ev, hev, h1, h2, h3, h4, h5, heq⟩
  · rw [heq]
  · exfalso
    rw [heq] at h
    rcases registerSecondSave_cases (setEvent st eid (pushAttendee ev uid)) eid uid now ev with
      ⟨hs, _⟩ | ⟨hs, _⟩
    · exact h.2 hs
    · apply h.1
      rw [hs]

/-- Inversion of a 201 answer of the first register handler. -/
theorem registerFirst_201 {st : St} {eid uid : String} {now : Nat}
    (h : (registerFirst st eid uid now).1.status = 201) :
    ∃ ev, lookupEvent st eid = some ev ∧
      ev.isRegistrationRequired = true ∧
      capacityFull (capFirst ev) ev.attendees.length = false ∧
      hasAttendee ev uid = false ∧
      lookupEvent (registerFirst st eid uid now).2 eid = some (pushAttendee ev uid) := by
  rcases registerFirst_shape st eid uid now with ⟨r, heq, hcase⟩ | ⟨ev, hev, h1, h2, h3, h4, heq⟩
  · exfalso
    rw [heq] at h
    rcases hcase with hc | hc | hc | hc | hc <;> rw [hc] at h <;> simp at h
  · refine ⟨ev, hev, h1, h3, h4, ?_⟩
    rw [heq]
    rw [lookupEvent_congr (registerFirstStore_events _ _ _ _ _) eid,
        lookupEvent_congr (pushEventsAttended_events _ _ _ _) eid]
    exact lookupEvent_setEvent_self _ hev

/-- Inversion of a 201 answer of the second register handler. -/
theorem registerSecond_201 {st : St} {eid uid : String} {now : Nat}
    (h : (registerSecond st eid uid now).1.status = 201) :
    ∃ ev, lookupEvent st eid = some ev ∧
      ev.isRegistrationRequired = true ∧
      capacityFull (capSecond ev) ev.attendees.length = false ∧
      hasAttendee ev uid = false ∧
      lookupEvent (registerSecond st eid uid now).2 eid = some (pushAttendee ev uid) := by
  rcases registerSecond_shape st eid uid now with ⟨r, heq, hcase⟩ | ⟨ev, hev, h1, h2, h3, h4, h5, heq⟩
  · exfalso
    rw [heq] at h
    rcases hcase with hc | hc | hc | hc | hc <;> rw [hc] at h <;> simp at h
  · refine ⟨ev, hev, h1, h3, h4, ?_⟩
    rw [heq]
    rw [lookupEvent_congr (registerSecondSave_events _ _ _ _ _) eid]
    exact lookupEvent_setEvent_self _ hev

/-- One first-handler call preserves the legacy-capacity invariant. -/
theorem capOkFirst_step (st : St) (eid uid : String) (now : Nat)
    (h : capOkFirst st eid = true) :
    capOkFirst ((registerFirst st eid uid now).2) eid = true := by
  rcases registerFirst_shape st eid uid now with ⟨r, heq, _⟩ | ⟨ev, hev, h1, h2, h3, h4, heq⟩
  · rw [heq]; exact h
  · rw [heq]
    unfold capOkFirst
    rw [lookupEvent_congr (registerFirstStore_events _ _ _ _ _) eid,
        lookupEvent_congr (pushEventsAttended_events _ _ _ _) eid,
        lookupEvent_setEvent_self _ hev]
    dsimp only
    rw [capFirst_pushAttendee, pushAttendee_length]
    by_cases hz : capFirst ev = 0
    · simp [hz]
    · have hle : ev.attendees.length + 1 ≤ capFirst ev := capacityFull_false_lt h3 hz
      simp [hle]

/-- One second-handler call preserves the effective-capacity invariant. -/
theorem capOkSecond_step (st : St) (eid uid : String) (now : Nat)
    (h : capOkSecond st eid = true) :
    capOkSecond ((registerSecond st eid uid now).2) eid = true := by
  rcases registerSecond_shape st eid uid now with ⟨r, heq, _⟩ | ⟨ev, hev, h1, h2, h3, h4, h5, heq⟩
  · rw [heq]; exact h
  · rw [heq]
    unfold capOkSecond
    rw [lookupEvent_congr (registerSecondSave_events _ _ _ _ _) eid,
        lookupEvent_setEvent_self _ hev]
    dsimp only
    rw [capSecond_pushAttendee, pushAttendee_length]
    by_cases hz : capSecond ev = 0
    · simp [hz]
    · have hle : ev.attendees.length + 1 ≤ capSecond ev := capacityFull_false_lt h3 hz
      simp [hle]

end Uniconnect

/-!  Claim theorems. -/

namespace Uniconnect

/-- C6: Unregister never deletes or modifies any Registration-Store
record: for every call (successful or not) the registration store of the
resulting state is exactly the registration store of the initial state. -/
theorem unregister_preserves_registration_store (st : St) (eid uid : String) (now : Nat) :
    ((unregister st eid uid now).2).regs = st.regs := by
  cases hev : lookupEvent st eid with
  | none => rw [unregister_notFound uid now hev]
  | some ev =>
    by_cases h1 : ev.startDate ≤ now
    · rw [unregister_started uid hev h1]
    · rw [unregister_open uid hev h1]
      show (pullEventsAttended _ _ _).regs = st.regs
      rw [pullEventsAttended_regs, setEvent_regs]

/-- C3 (code bug): at a state where user a is an attendee of an event that
has not started, Unregister answers 200 ("Successfully unregistered") yet
removes no Attendee entry: the filter compares the string rendering of the
whole attendee subdocument (`attendee.toString()`) with the user id, and
the two can never be equal, so the attendees list is unchanged. -/
theorem unregister_removes_nothing_bug :
    (unregister stC3 "e" "a" 5).1 = ⟨200, "Successfully unregistered from the event"⟩ ∧
    (lookupEvent (unregister stC3 "e" "a" 5).2 "e").map (fun ev => ev.attendees) =
      some [{ user := "a", attended := false }] ∧
    Attendee.render { user := "a", attended := false } ≠ "a" := by
  decide

/-- C8: the two register handlers are observably different: on a state
where the caller is already an attendee the first answers 400 and the
second 409, and on a state where only maxAttendees limits the event the
first accepts (201) while the second rejects with the capacity error. -/
theorem register_handlers_differ :
    (registerFirst stC8a "e" "u8" 0).1 = ⟨400, "You are already registered for this event"⟩ ∧
    (registerSecond stC8a "e" "u8" 0).1 = ⟨409, "You have already registered for this event."⟩ ∧
    (registerFirst stC8b "e" "u8" 0).1 = ⟨201, "Registered successfully"⟩ ∧
    (registerSecond stC8b "e" "u8" 0).1 = ⟨400, "Event is at full capacity"⟩ := by
  decide

/-- C9: the standalone registration endpoint checks only the presence of
the two ids: with both present it appends exactly one bare registration
record unconditionally (no event, deadline, capacity or duplicate check)
and touches neither the event store nor the user store; with a missing id
it answers 400 and changes nothing. -/
theorem createEventRegistration_spec (st : St) (e u : String) (he : e ≠ "") (hu : u ≠ "") :
    createEventRegistration st (some e) (some u) =
      (⟨201, "Registration saved successfully."⟩,
       { st with regs := st.regs ++ [bareReg e u] }) ∧
    ((createEventRegistration st (some e) (some u)).2).events = st.events ∧
    ((createEventRegistration st (some e) (some u)).2).users = st.users ∧
    (∀ u2, createEventRegistration st none u2 = (⟨400, "Event ID and User ID are required."⟩, st)) ∧
    (∀ e2, createEventRegistration st e2 none = (⟨400, "Event ID and User ID are required."⟩, st)) := by
  have hmain : createEventRegistration st (some e) (some u) =
      (⟨201, "Registration saved successfully."⟩,
       { st with regs := st.regs ++ [bareReg e u] }) := by
    unfold createEventRegistration bareReg
    simp [he, hu]
  refine ⟨hmain, by rw [hmain], by rw [hmain], fun u2 => rfl, fun e2 => ?_⟩
  cases e2 <;> rfl

/-- C9 witness: at a state whose registration store already holds a bare
record for (e9, u9), the endpoint still appends a second one. -/
theorem createEventRegistration_spec_witness :
    createEventRegistration stW9 (some "e9") (some "u9") =
      (⟨201, "Registration saved successfully."⟩,
       { stW9 with regs := stW9.regs ++ [bareReg "e9" "u9"] }) :=
  (createEventRegistration_spec stW9 "e9" "u9" (by decide) (by decide)).1

/-- C1 (amended): in the first register handler the five pre-effect checks
(event exists, registration required, deadline, capacity, duplicate
attendee) reject with the state unchanged, but the registration-store
duplicate check runs only after the attendee append and event save, so a
rejection with that duplicate message leaves the attendee appended while
the registration store is unchanged; in the second handler every non-201,
non-500 outcome leaves the state unchanged (all six checks precede any
effect). -/
theorem register_precondition_effects (st : St) (eid uid : String) (now : Nat) :
    ((registerFirst st eid uid now).1.status = 404 ∨
      ((registerFirst st eid uid now).1.status = 400 ∧
        (registerFirst st eid uid now).1.message ≠
          "You are already registered for this event (eventregistrations).") →
      (registerFirst st eid uid now).2 = st) ∧
    ((registerFirst st eid uid now).1.message =
        "You are already registered for this event (eventregistrations)." →
      ((registerFirst st eid uid now).2).regs = st.regs ∧
      ∃ ev, lookupEvent st eid = some ev ∧
        lookupEvent (registerFirst st eid uid now).2 eid = some (pushAttendee ev uid)) ∧
    ((registerSecond st eid uid now).1.status ≠ 201 ∧
      (registerSecond st eid uid now).1.status ≠ 500 →
      (registerSecond st eid uid now).2 = st) :=
  ⟨registerFirst_failure_frame st eid uid now,
   registerFirst_dupStore_effect st eid uid now,
   registerSecond_failure_frame st eid uid now⟩

/-- C1 counterexample: a Register call rejected with the
registration-store duplicate message has appended an attendee: the event
starts with no attendee, the store already holds a record for (e, u), the
call answers the DuplicateRegistration message, and the event now has one
attendee. -/
theorem registerFirst_storeDup_appends_attendee_cex :
    (lookupEvent stC1 "e").map (fun ev => ev.attendees.length) = some 0 ∧
    hasStoreRecord stC1.regs "e" "u" = true ∧
    (registerFirst stC1 "e" "u" 5).1 =
      ⟨400, "You are already registered for this event (eventregistrations)."⟩ ∧
    (lookupEvent (registerFirst stC1 "e" "u" 5).2 "e").map (fun ev => ev.attendees.length) =
      some 1 := by
  decide

/-- C1 witness: a deadline rejection of the first handler leaves the state
untouched. -/
theorem register_precondition_effects_witness :
    (registerFirst stWdl "e" "u" 99).2 = stWdl :=
  (register_precondition_effects stWdl "e" "u" 99).1 (by decide)

/-- C4 (amended): the second handler enforces the effective capacity
(`maxAttendees` if present else `capacity`) and the first handler enforces
only the legacy `capacity` field; when the legacy field is unset the first
handler never rejects for capacity, whatever maxAttendees says. -/
theorem capacity_check_fields (st : St) (eid uid : String) (now : Nat) (ev : EventRec)
    (hev : lookupEvent st eid = some ev)
    (hreq : ev.isRegistrationRequired = true)
    (hdl : deadlinePassed ev now = false) :
    (capacityFull (capSecond ev) ev.attendees.length = true →
      registerSecond st eid uid now = (⟨400, "Event is at full capacity"⟩, st)) ∧
    (capacityFull (capFirst ev) ev.attendees.length = true →
      registerFirst st eid uid now = (⟨400, "Event is at full capacity"⟩, st)) ∧
    (capFirst ev = 0 →
      (registerFirst st eid uid now).1.message ≠ "Event is at full capacity") := by
  refine ⟨fun h3 => registerSecond_capacity uid hev hreq hdl h3,
          fun h3 => registerFirst_capacity uid hev hreq hdl h3, ?_⟩
  intro hz
  have h3 : capacityFull (capFirst ev) ev.attendees.length = false := by
    rw [hz]; exact capacityFull_zero _
  cases h4 : hasAttendee ev uid with
  | true =>
    rw [registerFirst_dupAttendee hev hreq hdl h3 h4]
    exact (by decide :
      ("You are already registered for this event" : String) ≠ "Event is at full capacity")
  | false =>
    rw [registerFirst_effects hev hreq hdl h3 h4]
    rcases registerFirstStore_trichotomy
      (pushEventsAttended (setEvent st eid (pushAttendee ev uid)) eid uid now) eid uid now ev with
      ⟨hr, _, _⟩ | ⟨hr, _⟩ | ⟨hr, _⟩
    · rw [hr]; decide
    · rcases hr with hr | hr <;> rw [hr] <;> decide
    · rw [hr]; decide

/-- C4 counterexample: an event whose maxAttendees (2) is already reached
but whose legacy capacity field is unset is not capacity-limited by the
first handler: the register call succeeds and the attendee count rises to
3. -/
theorem registerFirst_ignores_maxAttendees_cex :
    (lookupEvent stC4 "e").map capSecond = some 2 ∧
    (lookupEvent stC4 "e").map (fun ev => ev.attendees.length) = some 2 ∧
    (registerFirst stC4 "e" "u4" 0).1 = ⟨201, "Registered successfully"⟩ ∧
    (lookupEvent (registerFirst stC4 "e" "u4" 0).2 "e").map (fun ev => ev.attendees.length) =
      some 3 := by
  decide

/-- C4 witness: the second handler rejects a full event (maxAttendees 1,
one attendee) with the capacity error and an unchanged state. -/
theorem capacity_check_fields_witness :
    registerSecond stW4 "e" "w4" 0 = (⟨400, "Event is at full capacity"⟩, stW4) :=
  (capacity_check_fields stW4 "e" "w4" 0 evW4 (by decide) (by decide) (by decide)).1 (by decide)

end Uniconnect

namespace Uniconnect

/-- C2 (amended): per handler, per capacity field it actually reads, the
attendee count never exceeds a set capacity across any sequence of
sequentially executed register calls: the first handler preserves the
legacy-capacity bound, the second handler preserves the effective-capacity
(maxAttendees else capacity) bound. -/
theorem capacity_invariant_sequences (st : St) (eid : String) (calls : List (String × Nat)) :
    (capOkFirst st eid = true → capOkFirst (runFirst eid st calls) eid = true) ∧
    (capOkSecond st eid = true → capOkSecond (runSecond eid st calls) eid = true) := by
  constructor
  · induction calls generalizing st with
    | nil => exact id
    | cons c rest ih =>
      intro h
      simp only [runFirst]
      exact ih _ (capOkFirst_step st eid c.1 c.2 h)
  · induction calls generalizing st with
    | nil => exact id
    | cons c rest ih =>
      intro h
      simp only [runSecond]
      exact ih _ (capOkSecond_step st eid c.1 c.2 h)

/-- C2 counterexample: an event with effective capacity 1 (maxAttendees
set, legacy capacity unset) and one attendee already: a single successful
first-handler Register pushes the count to 2, exceeding the effective
capacity even under purely sequential execution. -/
theorem capacity_invariant_maxAttendees_cex :
    (lookupEvent stC2 "e").map capSecond = some 1 ∧
    (lookupEvent stC2 "e").map (fun ev => ev.attendees.length) = some 1 ∧
    (registerFirst stC2 "e" "u2" 0).1.status = 201 ∧
    capOkSecond stC2 "e" = true ∧
    capOkSecond (runFirst "e" stC2 [("u2", 0)]) "e" = false := by
  decide

/-- C2 witness: starting under the bound, two first-handler calls and two
second-handler calls each keep their own capacity bound. -/
theorem capacity_invariant_sequences_witness :
    capOkFirst (runFirst "e" stW2w [("wa", 0), ("wb", 1), ("wc", 2)]) "e" = true ∧
    capOkSecond (runSecond "e" stW2w [("wa", 0), ("wb", 1), ("wc", 2)]) "e" = true :=
  ⟨(capacity_invariant_sequences stW2w "e" [("wa", 0), ("wb", 1), ("wc", 2)]).1 (by decide),
   (capacity_invariant_sequences stW2w "e" [("wa", 0), ("wb", 1), ("wc", 2)]).2 (by decide)⟩

/-- C5 (amended): after a successful Register, a second call for the same
(event, user) is always rejected with the state left exactly as it was
after the first call; the rejection is the DuplicateRegistration answer
whenever the deadline has not passed and the capacity check (of the field
the handler reads) does not fire first — at a full event the second call
reports CapacityExceeded instead, since capacity is checked before the
duplicate check. -/
theorem second_register_rejected (st : St) (eid uid : String) (n1 n2 : Nat) :
    ((registerFirst st eid uid n1).1.status = 201 →
      ((registerFirst ((registerFirst st eid uid n1).2) eid uid n2).1.status = 400 ∧
       (registerFirst ((registerFirst st eid uid n1).2) eid uid n2).2 =
         (registerFirst st eid uid n1).2) ∧
      (∀ ev1, lookupEvent ((registerFirst st eid uid n1).2) eid = some ev1 →
        deadlinePassed ev1 n2 = false →
        capacityFull (capFirst ev1) ev1.attendees.length = false →
        (registerFirst ((registerFirst st eid uid n1).2) eid uid n2).1 =
          ⟨400, "You are already registered for this event"⟩)) ∧
    ((registerSecond st eid uid n1).1.status = 201 →
      ((registerSecond ((registerSecond st eid uid n1).2) eid uid n2).2 =
         (registerSecond st eid uid n1).2) ∧
      (∀ ev1, lookupEvent ((registerSecond st eid uid n1).2) eid = some ev1 →
        deadlinePassed ev1 n2 = false →
        capacityFull (capSecond ev1) ev1.attendees.length = false →
        (registerSecond ((registerSecond st eid uid n1).2) eid uid n2).1 =
          ⟨409, "You have already registered for this event."⟩)) := by
  constructor
  · intro h
    obtain ⟨ev, hev, hreq, hcap, hatt, hlook⟩ := registerFirst_201 h
    have hreq1 : (pushAttendee ev uid).isRegistrationRequired = true := hreq
    have hatt1 : hasAttendee (pushAttendee ev uid) uid = true := hasAttendee_pushAttendee_self ev uid
    constructor
    · cases h2 : deadlinePassed (pushAttendee ev uid) n2 with
      | true =>
        rw [registerFirst_deadline uid hlook hreq1 h2]
        exact ⟨rfl, rfl⟩
      | false =>
        cases h3 : capacityFull (capFirst (pushAttendee ev uid))
            (pushAttendee ev uid).attendees.length with
        | true =>
          rw [registerFirst_capacity uid hlook hreq1 h2 h3]
          exact ⟨rfl, rfl⟩
        | false =>
          rw [registerFirst_dupAttendee hlook hreq1 h2 h3 hatt1]
          exact ⟨rfl, rfl⟩
    · intro ev1 hev1 hdl1 hcap1
      have hee : ev1 = pushAttendee ev uid := by
        rw [hev1] at hlook
        exact Option.some.inj hlook
      subst hee
      rw [registerFirst_dupAttendee hlook hreq1 hdl1 hcap1 hatt1]
  · intro h
    obtain ⟨ev, hev, hreq, hcap, hatt, hlook⟩ := registerSecond_201 h
    have hreq1 : (pushAttendee ev uid).isRegistrationRequired = true := hreq
    have hatt1 : hasAttendee (pushAttendee ev uid) uid = true := hasAttendee_pushAttendee_self ev uid
    constructor
    · cases h2 : deadlinePassed (pushAttendee ev uid) n2 with
      | true =>
        rw [registerSecond_deadline uid hlook hreq1 h2]
      | false =>
        cases h3 : capacityFull (capSecond (pushAttendee ev uid))
            (pushAttendee ev uid).attendees.length with
        | true =>
          rw [registerSecond_capacity uid hlook hreq1 h2 h3]
        | false =>
          rw [registerSecond_dupAttendee hlook hreq1 h2 h3 hatt1]
    · intro ev1 hev1 hdl1 hcap1
      have hee : ev1 = pushAttendee ev uid := by
        rw [hev1] at hlook
        exact Option.some.inj hlook
      subst hee
      rw [registerSecond_dupAttendee hlook hreq1 hdl1 hcap1 hatt1]

/-- C5 counterexample: at an event with capacity 1, a first Register
succeeds and fills the event; the repeated Register of the same user is
then rejected as CapacityExceeded ("Event is at full capacity"), not as
DuplicateRegistration, because the capacity check precedes the duplicate
check in both handlers. -/
theorem second_register_capacity_not_duplicate_cex :
    (registerFirst stC5 "e" "u5" 0).1.status = 201 ∧
    (registerFirst ((registerFirst stC5 "e" "u5" 0).2) "e" "u5" 1).1 =
      ⟨400, "Event is at full capacity"⟩ := by
  decide

/-- C5 witness: at an uncapped event, the second call of the same user is
the DuplicateRegistration rejection with the state unchanged. -/
theorem second_register_rejected_witness :
    (registerFirst ((registerFirst stW5 "e" "w5" 0).2) "e" "w5" 1).1.status = 400 ∧
    (registerFirst ((registerFirst stW5 "e" "w5" 0).2) "e" "w5" 1).2 =
      (registerFirst stW5 "e" "w5" 0).2 :=
  ((second_register_rejected stW5 "e" "w5" 0 1).1 (by decide)).1

end Uniconnect

namespace Uniconnect

/-- C10: a successful first-handler Register appends
{event, attendedDate: now} to the caller's eventsAttended (although the
caller has not attended yet), a successful Unregister drops every
eventsAttended entry of that event, and neither operation touches any
other field of the caller's User record or any other user's record. -/
theorem register_unregister_user_effects (st : St) (eid uid : String) (now : Nat) :
    (∀ u, lookupUser st uid = some u →
      ((registerFirst st eid uid now).1.status = 201 →
        lookupUser (registerFirst st eid uid now).2 uid =
          some { u with eventsAttended :=
            u.eventsAttended ++ [{ event := eid, attendedDate := now }] }) ∧
      ((unregister st eid uid now).1.status = 200 →
        lookupUser (unregister st eid uid now).2 uid =
          some { u with eventsAttended :=
            u.eventsAttended.filter (fun e2 => e2.event ≠ eid) })) ∧
    (∀ uid2, uid2 ≠ uid →
      lookupUser (registerFirst st eid uid now).2 uid2 = lookupUser st uid2 ∧
      lookupUser (unregister st eid uid now).2 uid2 = lookupUser st uid2) := by
  constructor
  · intro u hu
    constructor
    · intro h201
      rcases registerFirst_shape st eid uid now with ⟨r, heq, hcase⟩ | ⟨ev, hev, h1, h2, h3, h4, heq⟩
      · exfalso
        rw [heq] at h201
        rcases hcase with hc | hc | hc | hc | hc <;> rw [hc] at h201 <;> simp at h201
      · rw [heq]
        rw [lookupUser_congr (registerFirstStore_users _ _ _ _ _) uid]
        have hS1 : lookupUser (setEvent st eid (pushAttendee ev uid)) uid = some u := hu
        rw [lookupUser_pushEventsAttended_self eid now hS1]
    · intro h200
      cases hev : lookupEvent st eid with
      | none =>
        exfalso
        rw [unregister_notFound uid now hev] at h200
        simp at h200
      | some ev =>
        by_cases h1 : ev.startDate ≤ now
        · exfalso
          rw [unregister_started uid hev h1] at h200
          simp at h200
        · rw [unregister_open uid hev h1]
          have hS1 : lookupUser
              (setEvent st eid
                { ev with attendees := ev.attendees.filter (fun a => a.render ≠ uid) }) uid =
              some u := hu
          exact lookupUser_pullEventsAttended_self eid hS1
  · intro uid2 hne
    constructor
    · rcases registerFirst_shape st eid uid now with ⟨r, heq, _⟩ | ⟨ev, hev, h1, h2, h3, h4, heq⟩
      · rw [heq]
      · rw [heq]
        rw [lookupUser_congr (registerFirstStore_users _ _ _ _ _) uid2]
        rw [lookupUser_pushEventsAttended_ne eid now hne]
        rfl
    · cases hev : lookupEvent st eid with
      | none => rw [unregister_notFound uid now hev]
      | some ev =>
        by_cases h1 : ev.startDate ≤ now
        · rw [unregister_started uid hev h1]
        · rw [unregister_open uid hev h1]
          show lookupUser (pullEventsAttended _ eid uid) uid2 = lookupUser st uid2
          rw [lookupUser_pullEventsAttended_ne eid hne]
          rfl

/-- C10 witness: registering the witness user appends exactly the
eventsAttended entry to that user's record. -/
theorem register_unregister_user_effects_witness :
    lookupUser (registerFirst stW10 "e" "w10" 3).2 "w10" =
      some { uW10 with eventsAttended :=
        uW10.eventsAttended ++ [{ event := "e", attendedDate := 3 }] } :=
  (((register_unregister_user_effects stW10 "e" "w10" 3).1 uW10 (by decide)).1 (by decide))

end Uniconnect

namespace Uniconnect

/-- Appending a review by `uid` makes the duplicate-review check fire for
`uid`. -/
theorem hasReviewBy_append_self (ev : EventRec) (uid : String) (rating : Nat) (comment : String) :
    hasReviewBy
      { ev with reviews := ev.reviews ++ [{ user := uid, rating := rating, comment := comment }] }
      uid = true := by
  simp [hasReviewBy]

/-- C7: SubmitReview fails NotFound on a missing event, fails with the
must-attend rejection when the caller has no attended Attendee entry,
fails with the duplicate rejection when the caller already reviewed,
otherwise appends exactly one review and persists it; and after a
successful MarkAttendance(attended = true) for a caller without a review,
the first SubmitReview succeeds and an identical second call fails with
the duplicate rejection. -/
theorem submitReview_spec (st : St) (eid uid : String) (rating : Nat) (comment : String) :
    (lookupEvent st eid = none →
      submitReview st eid uid rating comment = (⟨404, "Event not found"⟩, st)) ∧
    (∀ ev, lookupEvent st eid = some ev →
      (attendedBy ev uid = false →
        submitReview st eid uid rating comment =
          (⟨400, "You must attend the event before leaving a review"⟩, st)) ∧
      (attendedBy ev uid = true → hasReviewBy ev uid = true →
        submitReview st eid uid rating comment =
          (⟨400, "You already reviewed this event"⟩, st)) ∧
      (attendedBy ev uid = true → hasReviewBy ev uid = false →
        submitReview st eid uid rating comment =
          (⟨200, "Review added successfully"⟩,
           setEvent st eid
             { ev with reviews :=
                 ev.reviews ++ [{ user := uid, rating := rating, comment := comment }] }))) ∧
    (∀ callerId callerRole ev, lookupEvent st eid = some ev →
      hasReviewBy ev uid = false →
      (markAttendance st eid callerId callerRole uid true).1.status = 200 →
      ((submitReview (markAttendance st eid callerId callerRole uid true).2
          eid uid rating comment).1.status = 200 ∧
       (submitReview
          (submitReview (markAttendance st eid callerId callerRole uid true).2
            eid uid rating comment).2
          eid uid rating comment).1 = ⟨400, "You already reviewed this event"⟩)) := by
  refine ⟨?_, ?_, ?_⟩
  · intro hnone
    exact submitReview_notFound uid rating comment hnone
  · intro ev hev
    exact ⟨fun ha => submitReview_notAttended rating comment hev ha,
           fun ha hr => submitReview_dup rating comment hev ha hr,
           fun ha hr => submitReview_success rating comment hev ha hr⟩
  · intro callerId callerRole ev hev hrev h200
    obtain ⟨ev2, hev2, hatt2, heq2⟩ := markAttendance_200 h200
    have hee : ev2 = ev := by
      rw [hev2] at hev
      exact Option.some.inj hev
    subst hee
    rw [heq2]
    have hlookM : lookupEvent
        (setEvent st eid { ev2 with attendees := setAttendedFirst ev2.attendees uid true }) eid =
        some { ev2 with attendees := setAttendedFirst ev2.attendees uid true } :=
      lookupEvent_setEvent_self _ hev2
    have hattM : attendedBy
        { ev2 with attendees := setAttendedFirst ev2.attendees uid true } uid = true :=
      setAttendedFirst_attended ev2.attendees uid hatt2
    have hrevM : hasReviewBy
        { ev2 with attendees := setAttendedFirst ev2.attendees uid true } uid = false := hrev
    rw [submitReview_success rating comment hlookM hattM hrevM]
    constructor
    · rfl
    · have hlookR : lookupEvent
          (setEvent
            (setEvent st eid { ev2 with attendees := setAttendedFirst ev2.attendees uid true })
            eid
            { ev2 with
              attendees := setAttendedFirst ev2.attendees uid true,
              reviews :=
                ev2.reviews ++ [{ user := uid, rating := rating, comment := comment }] }) eid =
          some { ev2 with
            attendees := setAttendedFirst ev2.attendees uid true,
            reviews := ev2.reviews ++ [{ user := uid, rating := rating, comment := comment }] } :=
        lookupEvent_setEvent_self _ hlookM
      have hattR : attendedBy
          { ev2 with
            attendees := setAttendedFirst ev2.attendees uid true,
            reviews := ev2.reviews ++ [{ user := uid, rating := rating, comment := comment }] }
          uid = true := hattM
      have hrevR : hasReviewBy
          { ev2 with
            attendees := setAttendedFirst ev2.attendees uid true,
            reviews := ev2.reviews ++ [{ user := uid, rating := rating, comment := comment }] }
          uid = true :=
        hasReviewBy_append_self
          { ev2 with attendees := setAttendedFirst ev2.attendees uid true } uid rating comment
      rw [submitReview_dup rating comment hlookR hattR hrevR]

/-- C7 witness: at the witness state the club president marks the caller
attended, after which the first review succeeds and the identical second
call is rejected as a duplicate. -/
theorem submitReview_spec_witness :
    (submitReview (markAttendance stWrev2 "e" "pres" "Student" "u" true).2
        "e" "u" 5 "great").1.status = 200 ∧
    (submitReview
        (submitReview (markAttendance stWrev2 "e" "pres" "Student" "u" true).2
          "e" "u" 5 "great").2
        "e" "u" 5 "great").1 = ⟨400, "You already reviewed this event"⟩ :=
  (submitReview_spec stWrev2 "e" "u" 5 "great").2.2 "pres" "Student" evWrev
    (by decide) (by decide) (by decide)

end Uniconnect
